import Mathlib

/-!
Shallow embedding of the GO-Wa multi-device WhatsApp session manager:

* the Device Client adapter (src/internal/adapters/whatsapp/client.go),
* the Session Manager (package whatsapp `Manager` over `map[string]*Client`,
  in the concatenated source file src/be/internal/core/usecases/device/list_devices.go),
* the Message Processor Registry (src/internal/core/usecases/device/delete_device.go,
  package message section),
* the JID validator (src/be/internal/pkg/validator/validator.go),
* the error taxonomy (src/be/internal/pkg/errors/errors.go),
* the GetQRCode and SendMessage use cases
  (src/be/internal/core/usecases/whatsapp/get_qr.go, send_message.go).

Pure Go functions become Lean functions.  The side-effecting collaborators
(the whatsmeow protocol library, the network, the clock, the QR channel)
are passed in as explicit parameters describing the outcome they produce;
a `go map` becomes an association list with unique keys.
-/

namespace GoWa

/-- internal/pkg/errors: the ErrorType constants. -/
inductive ErrorType where
  | validation
  | notFound
  | unauthorized
  | forbidden
  | conflict
  | internal
  | whatsapp
  | database
  | connection
deriving DecidableEq, Repr

/-- internal/pkg/errors.AppError, keeping Type and Message.  The HTTP status
code is a pure function of the type, and the Details map and wrapped cause
are never inspected by the code under verification, so they are dropped. -/
structure AppError where
  etype : ErrorType
  message : String
deriving DecidableEq, Repr

/-- errors.New -/
def errorsNew (t : ErrorType) (msg : String) : AppError := ⟨t, msg⟩

/-- errors.NewValidationError -/
def NewValidationError (msg : String) : AppError := ⟨.validation, msg⟩

/-- errors.NewNotFoundError: the message is "<resource> not found". -/
def NewNotFoundError (resource : String) : AppError := ⟨.notFound, resource ++ " not found"⟩

/-- errors.NewInternalError (the wrapped cause is dropped). -/
def NewInternalError (msg : String) : AppError := ⟨.internal, msg⟩

/-- errors.NewConnectionError (the wrapped cause is dropped). -/
def NewConnectionError (msg : String) : AppError := ⟨.connection, msg⟩

/-- errors.NewWhatsAppError (the wrapped cause is dropped). -/
def NewWhatsAppError (msg : String) : AppError := ⟨.whatsapp, msg⟩

/-- errors.NewDatabaseError (the wrapped cause is dropped). -/
def NewDatabaseError (msg : String) : AppError := ⟨.database, msg⟩

/-- domain.ConnectionStatus constants (src/unnamed/part_001). -/
inductive ConnectionStatus where
  | disconnected
  | connecting
  | connected
  | failed
deriving DecidableEq, Repr

/-- domain.ReceiverType constants. -/
inductive ReceiverType where
  | individual
  | group
deriving DecidableEq, Repr

/-- domain.MessageType is a string type in Go; the five named constants plus
an `other` constructor for any remaining string value (the Go switch has a
default arm reachable for such values). -/
inductive MessageType where
  | text
  | file
  | image
  | video
  | audio
  | other (raw : String)
deriving DecidableEq, Repr

/-- adapters/whatsapp.Client: the in-memory session state of one device
client.  `storeJID` is `c.client.Store.ID` (`none` = unpaired);
`sockConnected` is the underlying whatsmeow `c.client.IsConnected()`
live-socket state; `isConnected` is the adapter's own mutex-guarded flag;
`latestQR` is the cached pairing code ("" = none cached);
`libPanicsOnDisconnect` records whether the underlying library panics during
`c.client.Disconnect()` teardown — external behavior the adapter defends
against with a deferred recover. -/
structure Client where
  deviceName : String
  storeJID : Option String
  isConnected : Bool
  sockConnected : Bool
  latestQR : String
  libPanicsOnDisconnect : Bool
deriving DecidableEq, Repr

/-- Client.IsConnected: the conjunction of the locally tracked flag and the
underlying library's live-socket check. -/
def Client.IsConnected (c : Client) : Bool :=
  c.isConnected && c.sockConnected

/-- Client.Disconnect.  The deferred recover catches a panic raised by
`c.client.Disconnect()`; on that path the remaining statements of the
function body — including the `c.isConnected = false` assignment — are
skipped, and the function returns the zero value of its error result (nil).
On the normal path the library socket is closed and the local flag cleared.
Either way no error is ever returned. -/
def Client.Disconnect (c : Client) : Option AppError × Client :=
  if c.libPanicsOnDisconnect then
    (none, c)
  else
    (none, { c with isConnected := false, sockConnected := false })

/-- Client.GetConnectionStatus.  The `c.client == nil` guard in the source
always takes the non-nil branch, because NewClient unconditionally assigns
the library client before returning. -/
def Client.GetConnectionStatus (c : Client) : ConnectionStatus :=
  if c.storeJID.isNone then ConnectionStatus.disconnected
  else if c.IsConnected then ConnectionStatus.connected
  else ConnectionStatus.disconnected

/-- Client.GetJID: empty string when unpaired. -/
def Client.GetJID (c : Client) : String :=
  match c.storeJID with
  | none => ""
  | some j => j

/-- domain.QRCodeResponse (timestamps as Nat seconds). -/
structure QRCodeResponse where
  deviceName : String
  qrCode : String
  timeout : Nat
  expiresAt : Nat
deriving DecidableEq, Repr

/-- The outcome of the `select` in Client.GetQRCode waiting on the QR event
channel: a QR channel event (with its Event string, Code and Timeout
timestamp), the 30-second `time.After` firing first, or the caller's
context being cancelled first. -/
inductive QRWaitOutcome where
  | qrEvent (event : String) (code : String) (expiresAt : Nat)
  | timeout
  | cancelled (ctxErr : AppError)
deriving DecidableEq, Repr

/-- Client.GetQRCode.  `now` models `time.Now()` (seconds); `connectErr`
models the outcome of the underlying `c.client.Connect()`; `wait` models
which arm of the select fires first.  Returns the result together with the
updated client (the QR cache mutation). -/
def Client.GetQRCode (c : Client) (now : Nat) (connectErr : Option String)
    (wait : QRWaitOutcome) : Except AppError QRCodeResponse × Client :=
  if c.storeJID.isSome && c.sockConnected then
    (Except.error (errorsNew .conflict "Device already logged in"), c)
  else if c.latestQR ≠ "" then
    (Except.ok ⟨c.deviceName, c.latestQR, 30, now + 30⟩, c)
  else
    match connectErr with
    | some _ => (Except.error (NewConnectionError "Failed to connect for QR generation"), c)
    | none =>
      match wait with
      | QRWaitOutcome.qrEvent ev code ts =>
        if ev = "code" then
          (Except.ok ⟨c.deviceName, code, 30, ts⟩, { c with latestQR := code })
        else
          (Except.error (NewWhatsAppError ("Unknown QR event: " ++ ev)), c)
      | QRWaitOutcome.timeout =>
        (Except.error (NewWhatsAppError "Timeout waiting for QR code"), c)
      | QRWaitOutcome.cancelled e => (Except.error e, c)

/-- Client.SendTextMessage, returning the result together with a flag
telling whether the network send (`c.client.SendMessage`) was reached.
`parseOk` models the external `types.ParseJID` call; `sendErr` models the
network outcome of `c.client.SendMessage`. -/
def Client.SendTextMessage (c : Client) (toJID : String)
    (parseOk : Bool) (sendErr : Option String) : Option AppError × Bool :=
  if !c.IsConnected then
    (some (errorsNew .connection "Client not connected"), false)
  else if !parseOk then
    (some (NewValidationError ("Invalid JID: " ++ toJID)), false)
  else
    match sendErr with
    | some _ => (some (NewWhatsAppError "Failed to send message"), true)
    | none => (none, true)

/-- Client.SendFileMessage: a placeholder in the source, it always fails
with an Internal error and performs no network call. -/
def Client.SendFileMessage (_c : Client) : Option AppError × Bool :=
  (some (errorsNew .internal "File sending not yet implemented in adapter"), false)

/-- whatsapp.Manager: the `clients map[string]*Client` field as an
association list with unique keys (the RWMutex serializes access, so each
operation sees and produces one consistent map). -/
structure Manager where
  clients : List (String × Client)
deriving DecidableEq, Repr

/-- The `m.clients[deviceName]` map lookup. -/
def lookupClient (m : Manager) (deviceName : String) : Option Client :=
  (m.clients.find? (fun e => e.1 == deviceName)).map (fun e => e.2)

/-- Manager.ListClients: the key set of the map. -/
def listClients (m : Manager) : List String :=
  m.clients.map (fun e => e.1)

/-- Manager.GetClientCount: the size of the map. -/
def GetClientCount (m : Manager) : Nat :=
  m.clients.length

/-- Manager.CreateClient.  `mk` models the side-effecting
`NewClient(ctx, clientConfig)` construction (SQLite store setup may fail).
If a client for the name already exists it is returned unchanged and
nothing is stored; on construction failure nothing is stored either. -/
def Manager.CreateClient (m : Manager) (deviceName : String)
    (mk : Except AppError Client) : Except AppError Client × Manager :=
  match lookupClient m deviceName with
  | some c => (Except.ok c, m)
  | none =>
    match mk with
    | Except.error e => (Except.error e, m)
    | Except.ok c => (Except.ok c, ⟨m.clients ++ [(deviceName, c)]⟩)

/-- Manager.GetClient: lookup only, never creates. -/
def Manager.GetClient (m : Manager) (deviceName : String) : Option Client × Bool :=
  match lookupClient m deviceName with
  | some c => (some c, true)
  | none => (none, false)

/-- Manager.RemoveClient: NotFound when absent; otherwise the client is
disconnected — a disconnect error is only logged, never propagated — and
the map entry is deleted.  The best-effort store-file removal touches only
the filesystem and is not modeled. -/
def Manager.RemoveClient (m : Manager) (deviceName : String) :
    Option AppError × Manager :=
  match lookupClient m deviceName with
  | none => (some (NewNotFoundError ("Device \x27" ++ deviceName ++ "\x27")), m)
  | some c =>
    let _disc := c.Disconnect
    (none, ⟨m.clients.filter (fun e => !(e.1 == deviceName))⟩)

/-- Manager.DisconnectAll: disconnects every client, collecting the
per-device error strings; a combined Internal error when any disconnect
failed, nil otherwise.  The map entries are NOT removed. -/
def Manager.DisconnectAll (m : Manager) : Option AppError × Manager :=
  let results := m.clients.map (fun e => (e.1, e.2.Disconnect))
  let errs := results.filterMap
    (fun r => r.2.1.map (fun err => r.1 ++ ": " ++ err.message))
  let m' : Manager := ⟨results.map (fun r => (r.1, r.2.2))⟩
  if errs.isEmpty then (none, m')
  else
    (some (errorsNew .internal
      ("Failed to disconnect some clients: " ++ String.intercalate "; " errs)), m')

/-- Writing the (pointer-shared) client state back into the map: in Go the
map stores `*Client`, so an adapter mutation is visible through the map
without an explicit store.  The embedding makes that sharing explicit. -/
def updateClient (m : Manager) (deviceName : String) (c : Client) : Manager :=
  ⟨m.clients.map (fun e => if e.1 == deviceName then (e.1, c) else e)⟩

/-- validator: the `\d+` regex piece — one or more ASCII digits
(Go regexp `\d` is ASCII-only). -/
def digits1 (cs : List Char) : Bool :=
  !cs.isEmpty && cs.all (fun ch => ch.isDigit)

/-- Strips a literal suffix from a character list, `none` when absent:
the anchored literal tail of each validator regex. -/
def stripSuffixCs (cs sfx : List Char) : Option (List Char) :=
  if sfx.isSuffixOf cs then some (cs.take (cs.length - sfx.length)) else none

/-- validator.ValidateWhatsAppJID: the string matches
`^\d+@s\.whatsapp\.net$` or `^\d+-\d+@g\.us$`.  Since `\d+` can contain
neither `@` nor `-`, a match is exactly: the literal suffix is present and
the remainder decomposes into the digit groups. -/
def ValidateWhatsAppJID (jid : String) : Bool :=
  (match stripSuffixCs jid.data "@s.whatsapp.net".data with
   | some rest => digits1 rest
   | none => false)
  ||
  (match stripSuffixCs jid.data "@g.us".data with
   | some rest =>
     (match rest.splitOn '-' with
      | [a, b] => digits1 a && digits1 b
      | _ => false)
   | none => false)

/-- domain.IncomingMessage (`from` is a Lean keyword, hence `sender`). -/
structure IncomingMessage where
  id : String
  deviceName : String
  sender : String
  content : String
  timestamp : Nat
  isGroup : Bool
deriving DecidableEq, Repr

/-- domain.MessageProcessor: Name, Priority, CanProcess, Process.
`process msg = none` models a nil error. -/
structure MessageProcessor where
  name : String
  priority : Int
  canProcess : IncomingMessage → Bool
  process : IncomingMessage → Option AppError

/-- Descending priority: the `less` comparator
`r.processors[i].Priority() > r.processors[j].Priority()` sorts the slice
so that consecutive elements satisfy this reflexive relation. -/
def prGE (a b : MessageProcessor) : Prop := b.priority ≤ a.priority

instance : DecidableRel prGE :=
  fun a b => (inferInstance : Decidable (b.priority ≤ a.priority))

instance : IsTotal MessageProcessor prGE := ⟨fun a b => le_total b.priority a.priority⟩

instance : IsTrans MessageProcessor prGE := ⟨fun _ _ _ h1 h2 => le_trans h2 h1⟩

/-- ProcessorRegistry.Register: append the processor, then sort the slice
by descending priority.  Go `sort.Slice` guarantees a permutation ordered
by the comparator (ties in unspecified but deterministic order); the
embedding realizes that postcondition with insertion sort. -/
def Register (processors : List MessageProcessor) (p : MessageProcessor) :
    List MessageProcessor :=
  List.insertionSort prGE (processors ++ [p])

/-- A sequence of Register calls starting from the empty registry. -/
def RegisterAll (l : List MessageProcessor) : List MessageProcessor :=
  l.foldl Register []

/-- ProcessorRegistry.GetProcessors returns a copy of the slice. -/
def GetProcessors (processors : List MessageProcessor) : List MessageProcessor :=
  processors

/-- The loop body of ProcessorRegistry.Process: walk the processors in
slice order; skip those whose CanProcess is false; invoke Process on the
rest, collecting the errors in order and the names of the processors that
were invoked (the no-short-circuit `continue` on error). -/
def runProcessors (msg : IncomingMessage) :
    List MessageProcessor → List AppError × List String
  | [] => ([], [])
  | p :: ps =>
    if p.canProcess msg then
      match p.process msg with
      | some e =>
        let rest := runProcessors msg ps
        (e :: rest.1, p.name :: rest.2)
      | none =>
        let rest := runProcessors msg ps
        (rest.1, p.name :: rest.2)
    else runProcessors msg ps

/-- ProcessorRegistry.Process: after the loop, return the first recorded
error if any (nil otherwise — an unclaimed message is only a debug-level
observation).  The second component reports which processors were invoked,
in order. -/
def RegistryProcess (processors : List MessageProcessor)
    (msg : IncomingMessage) : Option AppError × List String :=
  let r := runProcessors msg processors
  (r.1.head?, r.2)

/-- domain.SendMessageParams (the fields the use case reads). -/
structure SendMessageParams where
  deviceName : String
  toJID : String
  message : String
  messageType : MessageType
  receiverType : ReceiverType
  typing : Bool
deriving DecidableEq, Repr

/-- whatsapp.GetQRCodeUseCase.Execute: resolve the client (creating it
lazily), fail Conflict when the client reports IsConnected, otherwise run
the adapter GetQRCode and wrap its failure as a WhatsApp error.  `mk`,
`now`, `connectErr` and `wait` are the collaborator outcomes threaded into
Manager.CreateClient and Client.GetQRCode. -/
def GetQRCodeExecute (m : Manager) (deviceName : String)
    (mk : Except AppError Client) (now : Nat) (connectErr : Option String)
    (wait : QRWaitOutcome) : Except AppError QRCodeResponse × Manager :=
  match lookupClient m deviceName with
  | some c =>
    if c.IsConnected then
      (Except.error (errorsNew .conflict
        ("Device \x27" ++ deviceName ++ "\x27 is already connected")), m)
    else
      match c.GetQRCode now connectErr wait with
      | (Except.error _, c') =>
        (Except.error (NewWhatsAppError "Failed to generate QR code"),
         updateClient m deviceName c')
      | (Except.ok r, c') => (Except.ok r, updateClient m deviceName c')
  | none =>
    match m.CreateClient deviceName mk with
    | (Except.error _, m') =>
      (Except.error (NewInternalError "Failed to create WhatsApp client"), m')
    | (Except.ok c, m') =>
      if c.IsConnected then
        (Except.error (errorsNew .conflict
          ("Device \x27" ++ deviceName ++ "\x27 is already connected")), m')
      else
        match c.GetQRCode now connectErr wait with
        | (Except.error _, c') =>
          (Except.error (NewWhatsAppError "Failed to generate QR code"),
           updateClient m' deviceName c')
        | (Except.ok r, c') => (Except.ok r, updateClient m' deviceName c')

/-- whatsapp.SendMessageUseCase.Execute, returning the result together
with a flag telling whether any network call on the client (typing
indicator or message send) was attempted.  Validation of the recipient JID
comes first, then the NotFound lookup, then the connection requirement,
then the typing indicator and the per-type dispatch; any send error is
wrapped as a WhatsApp error. -/
def SendMessageExecute (m : Manager) (p : SendMessageParams)
    (parseOk : Bool) (sendErr : Option String) : Option AppError × Bool :=
  if !(ValidateWhatsAppJID p.toJID) then
    (some (NewValidationError ("Invalid WhatsApp JID: " ++ p.toJID)), false)
  else
    match lookupClient m p.deviceName with
    | none => (some (NewNotFoundError ("Device \x27" ++ p.deviceName ++ "\x27")), false)
    | some c =>
      if !c.IsConnected then
        (some (errorsNew .connection
          ("Device \x27" ++ p.deviceName ++ "\x27 is not connected")), false)
      else
        match p.messageType with
        | MessageType.text =>
          match c.SendTextMessage p.toJID parseOk sendErr with
          | (some _, att) =>
            (some (NewWhatsAppError "Failed to send message"), p.typing || att)
          | (none, att) => (none, p.typing || att)
        | MessageType.file | MessageType.image
        | MessageType.video | MessageType.audio =>
          match c.SendFileMessage with
          | (some _, att) =>
            (some (NewWhatsAppError "Failed to send message"), p.typing || att)
          | (none, att) => (none, p.typing || att)
        | MessageType.other raw =>
          (some (NewValidationError ("Unsupported message type: " ++ raw)), p.typing)

/-! ## Concrete fixtures used by witnesses and counterexamples -/

/-- A paired, connected client with well-behaved teardown. -/
def connClient : Client :=
  ⟨"dev1", some "628111@s.whatsapp.net", true, true, "", false⟩

/-- A paired, connected client whose library panics during teardown. -/
def panickyClient : Client :=
  ⟨"dev2", some "628222@s.whatsapp.net", true, true, "", true⟩

/-- An unpaired, disconnected client with no cached QR code. -/
def freshClient : Client :=
  ⟨"dev3", none, false, false, "", false⟩

/-- A manager holding three devices, the middle one panicky. -/
def threeClientManager : Manager :=
  ⟨[("dev1", connClient), ("dev2", panickyClient), ("dev3", freshClient)]⟩

/-- A manager holding only the panicky client. -/
def oneClientManager : Manager := ⟨[("dev2", panickyClient)]⟩

/-- A manager with a connected device named shop1. -/
def shopManager : Manager := ⟨[("shop1", connClient)]⟩

/-- A manager whose shop1 device is present but disconnected. -/
def discManager : Manager := ⟨[("shop1", freshClient)]⟩

/-! ## Shared helper lemmas -/

/-- `find?` skips a whole prefix on which it yields nothing. -/
theorem find?_append_of_none {α : Type} {l₁ : List α} (l₂ : List α) (p : α → Bool)
    (h : l₁.find? p = none) : (l₁ ++ l₂).find? p = l₂.find? p := by
  induction l₁ with
  | nil => rfl
  | cons a l ih =>
    rw [List.find?_eq_none] at h
    have hpa : ¬(p a = true) := h a (List.mem_cons_self a l)
    have hl : l.find? p = none :=
      List.find?_eq_none.mpr (fun x hx => h x (List.mem_cons_of_mem a hx))
    rw [List.cons_append, List.find?_cons_of_neg _ hpa, ih hl]

/-- Client.Disconnect returns a nil error on both paths. -/
theorem Disconnect_fst_eq_none (c : Client) : (c.Disconnect).1 = none := by
  unfold Client.Disconnect
  by_cases h : c.libPanicsOnDisconnect <;> simp [h]

/-! ## C1 -/

/-- C1: for a device name with no live client, CreateClient stores the
constructed client and a second CreateClient with no intervening
RemoveClient returns that same client instance, leaves the manager
unchanged, and the live-client count has increased by exactly one, not
two. -/
theorem CreateClient_idempotent (m : Manager) (deviceName : String) (c : Client)
    (mk2 : Except AppError Client)
    (hfresh : lookupClient m deviceName = none) :
    (m.CreateClient deviceName (Except.ok c)).1 = Except.ok c ∧
    ((m.CreateClient deviceName (Except.ok c)).2.CreateClient deviceName mk2).1
      = Except.ok c ∧
    ((m.CreateClient deviceName (Except.ok c)).2.CreateClient deviceName mk2).2
      = (m.CreateClient deviceName (Except.ok c)).2 ∧
    GetClientCount (m.CreateClient deviceName (Except.ok c)).2
      = GetClientCount m + 1 ∧
    GetClientCount ((m.CreateClient deviceName (Except.ok c)).2.CreateClient
      deviceName mk2).2 = GetClientCount m + 1 := by
  have hfind : m.clients.find? (fun e => e.1 == deviceName) = none := by
    unfold lookupClient at hfresh
    cases hf : m.clients.find? (fun e => e.1 == deviceName) with
    | none => rfl
    | some e => rw [hf] at hfresh; simp at hfresh
  have hstep : m.CreateClient deviceName (Except.ok c)
      = (Except.ok c, ⟨m.clients ++ [(deviceName, c)]⟩) := by
    unfold Manager.CreateClient
    rw [hfresh]
  have hlook2 : lookupClient ⟨m.clients ++ [(deviceName, c)]⟩ deviceName = some c := by
    unfold lookupClient
    rw [find?_append_of_none _ _ hfind]
    simp [List.find?]
  have hstep2 : (Manager.mk (m.clients ++ [(deviceName, c)])).CreateClient
      deviceName mk2 = (Except.ok c, ⟨m.clients ++ [(deviceName, c)]⟩) := by
    unfold Manager.CreateClient
    rw [hlook2]
  rw [hstep, hstep2]
  refine ⟨rfl, rfl, rfl, ?_, ?_⟩ <;> simp [GetClientCount]

/-- C1 witness at an empty manager and the device name dev3. -/
theorem CreateClient_idempotent_witness :
    lookupClient (⟨[]⟩ : Manager) "dev3" = none ∧
    ((Manager.CreateClient ⟨[]⟩ "dev3" (Except.ok freshClient)).1
        = Except.ok freshClient ∧
      ((Manager.CreateClient ⟨[]⟩ "dev3" (Except.ok freshClient)).2.CreateClient
        "dev3" (Except.ok connClient)).1 = Except.ok freshClient ∧
      ((Manager.CreateClient ⟨[]⟩ "dev3" (Except.ok freshClient)).2.CreateClient
        "dev3" (Except.ok connClient)).2
        = (Manager.CreateClient ⟨[]⟩ "dev3" (Except.ok freshClient)).2 ∧
      GetClientCount (Manager.CreateClient ⟨[]⟩ "dev3" (Except.ok freshClient)).2
        = GetClientCount ⟨[]⟩ + 1 ∧
      GetClientCount ((Manager.CreateClient ⟨[]⟩ "dev3"
        (Except.ok freshClient)).2.CreateClient "dev3" (Except.ok connClient)).2
        = GetClientCount ⟨[]⟩ + 1) :=
  ⟨rfl, CreateClient_idempotent ⟨[]⟩ "dev3" freshClient (Except.ok connClient) rfl⟩

/-! ## C7 -/

/-- C7 counterexample: on a connected client whose library panics during
teardown, Disconnect returns without error (the panic is recovered) but the
local isConnected flag stays true — the `c.isConnected = false` statement
is skipped when the panic unwinds to the deferred recover. -/
theorem Disconnect_panic_keeps_isConnected :
    (panickyClient.Disconnect).1 = none ∧
    ((panickyClient.Disconnect).2).isConnected = true := by decide

/-- C7 amended: Disconnect always returns without error — disconnecting an
already-disconnected client succeeds silently and a library panic is
recovered and never propagated — and it leaves isConnected false whenever
the teardown does not panic; on a panic the whole client state (including
the flag) keeps its prior value. -/
theorem Disconnect_never_errors (c : Client) :
    (c.Disconnect).1 = none ∧
    (c.libPanicsOnDisconnect = false → ((c.Disconnect).2).isConnected = false) ∧
    (c.libPanicsOnDisconnect = true → (c.Disconnect).2 = c) := by
  unfold Client.Disconnect
  by_cases h : c.libPanicsOnDisconnect <;> simp [h]

/-- C7 amended-theorem witness at an already-disconnected client and a
well-behaved connected client. -/
theorem Disconnect_never_errors_witness :
    connClient.libPanicsOnDisconnect = false ∧
    (connClient.Disconnect).1 = none ∧
    ((connClient.Disconnect).2).isConnected = false :=
  ⟨rfl, (Disconnect_never_errors connClient).1,
    (Disconnect_never_errors connClient).2.1 rfl⟩

/-! ## C8 -/

/-- C8 counterexample: DisconnectAll over three devices of which one panics
during teardown reports overall success (nil error) — but the device map is
NOT empty afterwards: ListClients still returns all three names. -/
theorem DisconnectAll_leaves_map_nonempty :
    (threeClientManager.DisconnectAll).1 = none ∧
    listClients (threeClientManager.DisconnectAll).2 = ["dev1", "dev2", "dev3"] ∧
    listClients (threeClientManager.DisconnectAll).2 ≠ [] := by decide

/-- C8 amended: DisconnectAll always reports success — a teardown panic is
recovered inside Client.Disconnect, which never returns an error — and it
leaves the device map unchanged: ListClients returns the same names
afterwards (DisconnectAll does not remove map entries). -/
theorem DisconnectAll_success_map_unchanged (m : Manager) :
    (m.DisconnectAll).1 = none ∧
    listClients (m.DisconnectAll).2 = listClients m := by
  have herrs : (m.clients.map (fun e => (e.1, e.2.Disconnect))).filterMap
      (fun r => r.2.1.map (fun err => r.1 ++ ": " ++ err.message)) = [] := by
    induction m.clients with
    | nil => rfl
    | cons e es ih =>
      simp only [List.map_cons, List.filterMap_cons, Disconnect_fst_eq_none]
      exact ih
  unfold Manager.DisconnectAll
  simp only [herrs, List.isEmpty_nil, if_true]
  refine ⟨by trivial, ?_⟩
  simp [listClients, List.map_map, Function.comp]

/-! ## C2 -/

/-- C2: RemoveClient on an absent device name fails with a NotFound error
and leaves the manager unchanged; on a present name it returns a nil error
and the name is gone from ListClients afterwards — whatever the client's
Disconnect call did, since its result is only logged, never consulted. -/
theorem RemoveClient_spec (m : Manager) (deviceName : String) :
    (lookupClient m deviceName = none →
      m.RemoveClient deviceName
        = (some (NewNotFoundError ("Device \x27" ++ deviceName ++ "\x27")), m)) ∧
    (∀ c, lookupClient m deviceName = some c →
      (m.RemoveClient deviceName).1 = none ∧
      deviceName ∉ listClients (m.RemoveClient deviceName).2) := by
  constructor
  · intro h
    unfold Manager.RemoveClient
    rw [h]
  · intro c h
    unfold Manager.RemoveClient
    rw [h]
    refine ⟨rfl, ?_⟩
    have hall : ∀ e ∈ m.clients.filter (fun e => !(e.1 == deviceName)),
        e.1 ≠ deviceName := by
      intro e he
      have hp := (List.mem_filter.mp he).2
      simpa using hp
    intro hmem
    obtain ⟨e, he, heq⟩ := List.mem_map.mp hmem
    exact hall e he heq

/-- C2 witness: the NotFound case on an empty manager, and removal of a
device whose teardown panics (its Disconnect is as faulty as the concrete
client can be) still deleting the map entry with a nil error. -/
theorem RemoveClient_spec_witness :
    (lookupClient (⟨[]⟩ : Manager) "ghost" = none ∧
      Manager.RemoveClient ⟨[]⟩ "ghost"
        = (some (NewNotFoundError "Device \x27ghost\x27"), (⟨[]⟩ : Manager))) ∧
    (lookupClient oneClientManager "dev2" = some panickyClient ∧
      (oneClientManager.RemoveClient "dev2").1 = none ∧
      "dev2" ∉ listClients (oneClientManager.RemoveClient "dev2").2) :=
  ⟨⟨rfl, (RemoveClient_spec ⟨[]⟩ "ghost").1 rfl⟩,
    ⟨rfl, (RemoveClient_spec oneClientManager "dev2").2 panickyClient rfl⟩⟩

/-! ## C3 -/

/-- C3: the GetQRCode use case called on a device whose client reports
IsConnected fails with a Conflict-kind error and never returns a QR code
(the manager is left unchanged). -/
theorem GetQRCode_conflict_when_connected (m : Manager) (deviceName : String)
    (c : Client) (mk : Except AppError Client) (now : Nat)
    (connectErr : Option String) (wait : QRWaitOutcome)
    (hc : lookupClient m deviceName = some c)
    (hconn : c.IsConnected = true) :
    GetQRCodeExecute m deviceName mk now connectErr wait
      = (Except.error (errorsNew .conflict
          ("Device \x27" ++ deviceName ++ "\x27 is already connected")), m) ∧
    (errorsNew .conflict
      ("Device \x27" ++ deviceName ++ "\x27 is already connected")).etype
        = ErrorType.conflict := by
  unfold GetQRCodeExecute
  rw [hc]
  refine ⟨?_, rfl⟩
  simp [hconn]

/-- C3 witness at the shop1 manager whose client is connected. -/
theorem GetQRCode_conflict_when_connected_witness :
    lookupClient shopManager "shop1" = some connClient ∧
    connClient.IsConnected = true ∧
    GetQRCodeExecute shopManager "shop1" (Except.ok freshClient) 0 none
        QRWaitOutcome.timeout
      = (Except.error (errorsNew .conflict
          "Device \x27shop1\x27 is already connected"), shopManager) :=
  ⟨rfl, rfl,
    (GetQRCode_conflict_when_connected shopManager "shop1" connClient
      (Except.ok freshClient) 0 none QRWaitOutcome.timeout rfl rfl).1⟩

/-! ## C6 -/

/-- C6: for a client with no cached QR code that is not already logged in
and whose underlying connect succeeded, when the 30-second timeout fires
before any QR event, GetQRCode returns the WhatsApp-kind error "Timeout
waiting for QR code" (not a generic one); when the caller's context is
cancelled first, it returns with the context's error.  The blocking select
is modeled by the QRWaitOutcome parameter: each possible outcome yields a
return, never a hang. -/
theorem GetQRCode_timeout_kind (c : Client) (now : Nat)
    (hnoqr : c.latestQR = "")
    (hnotlogged : (c.storeJID.isSome && c.sockConnected) = false) :
    (c.GetQRCode now none QRWaitOutcome.timeout).1
      = Except.error (NewWhatsAppError "Timeout waiting for QR code") ∧
    (NewWhatsAppError "Timeout waiting for QR code").etype = ErrorType.whatsapp ∧
    (∀ e : AppError, (c.GetQRCode now none (QRWaitOutcome.cancelled e)).1
      = Except.error e) := by
  unfold Client.GetQRCode
  refine ⟨?_, rfl, ?_⟩ <;> simp [hnoqr, hnotlogged]

/-- C6 witness at an unpaired client with an empty QR cache. -/
theorem GetQRCode_timeout_kind_witness :
    freshClient.latestQR = "" ∧
    (freshClient.storeJID.isSome && freshClient.sockConnected) = false ∧
    (freshClient.GetQRCode 0 none QRWaitOutcome.timeout).1
      = Except.error (NewWhatsAppError "Timeout waiting for QR code") :=
  ⟨rfl, rfl, (GetQRCode_timeout_kind freshClient 0 rfl rfl).1⟩

/-! ## C9 -/

/-- C9: the SendMessage use case on an existing device requires
IsConnected and fails with a Connection-kind error otherwise (for a
well-formed recipient); and a recipient not matching the WhatsApp JID
format fails with a Validation error with no network call attempted — the
format check runs before the client is even consulted, so the device's
connectivity is irrelevant to that branch. -/
theorem SendMessage_connection_and_validation (m : Manager)
    (p : SendMessageParams) (c : Client) (parseOk : Bool)
    (sendErr : Option String)
    (hfound : lookupClient m p.deviceName = some c) :
    (ValidateWhatsAppJID p.toJID = true → c.IsConnected = false →
      SendMessageExecute m p parseOk sendErr
        = (some (errorsNew .connection
            ("Device \x27" ++ p.deviceName ++ "\x27 is not connected")), false)) ∧
    (ValidateWhatsAppJID p.toJID = false →
      SendMessageExecute m p parseOk sendErr
        = (some (NewValidationError ("Invalid WhatsApp JID: " ++ p.toJID)), false)) := by
  constructor
  · intro hv hcn
    unfold SendMessageExecute
    rw [hfound]
    simp [hv, hcn]
  · intro hv
    unfold SendMessageExecute
    simp [hv]

/-- C9 witness: a disconnected shop1 with a valid recipient fails
Connection; a connected shop1 with the malformed recipient "not-a-jid"
fails Validation with no network send attempted. -/
theorem SendMessage_connection_and_validation_witness :
    (lookupClient discManager "shop1" = some freshClient ∧
      ValidateWhatsAppJID "628123@s.whatsapp.net" = true ∧
      freshClient.IsConnected = false ∧
      SendMessageExecute discManager
          ⟨"shop1", "628123@s.whatsapp.net", "hi", MessageType.text,
            ReceiverType.individual, false⟩ true none
        = (some (errorsNew .connection
            "Device \x27shop1\x27 is not connected"), false)) ∧
    (lookupClient shopManager "shop1" = some connClient ∧
      connClient.IsConnected = true ∧
      ValidateWhatsAppJID "not-a-jid" = false ∧
      SendMessageExecute shopManager
          ⟨"shop1", "not-a-jid", "hi", MessageType.text,
            ReceiverType.individual, false⟩ true none
        = (some (NewValidationError "Invalid WhatsApp JID: not-a-jid"), false)) := by
  refine ⟨⟨rfl, by decide, rfl, ?_⟩, ⟨rfl, rfl, by decide, ?_⟩⟩
  · exact (SendMessage_connection_and_validation discManager
      ⟨"shop1", "628123@s.whatsapp.net", "hi", MessageType.text,
        ReceiverType.individual, false⟩ freshClient true none rfl).1 (by decide) rfl
  · exact (SendMessage_connection_and_validation shopManager
      ⟨"shop1", "not-a-jid", "hi", MessageType.text,
        ReceiverType.individual, false⟩ connClient true none rfl).2 (by decide)

/-! ## C10 -/

/-- C10: GetConnectionStatus only ever produces connected or disconnected —
the connecting and failed members of the status set are never returned by
the public accessor — and an unpaired client (no stored JID) always
reports disconnected. -/
theorem GetConnectionStatus_only_two (c : Client) :
    (c.GetConnectionStatus = ConnectionStatus.connected ∨
      c.GetConnectionStatus = ConnectionStatus.disconnected) ∧
    (c.storeJID = none → c.GetConnectionStatus = ConnectionStatus.disconnected) := by
  unfold Client.GetConnectionStatus
  constructor
  · by_cases h1 : c.storeJID.isNone <;> by_cases h2 : c.IsConnected <;> simp [h1, h2]
  · intro h
    simp [h]

/-- C10 witness at the unpaired client. -/
theorem GetConnectionStatus_only_two_witness :
    freshClient.storeJID = none ∧
    freshClient.GetConnectionStatus = ConnectionStatus.disconnected :=
  ⟨rfl, (GetConnectionStatus_only_two freshClient).2 rfl⟩

/-! ## C4 -/

/-- A registry in which no processor claims the message runs nothing and
records nothing. -/
theorem runProcessors_of_no_claim (msg : IncomingMessage)
    (procs : List MessageProcessor)
    (h : ∀ p ∈ procs, p.canProcess msg = false) :
    runProcessors msg procs = ([], []) := by
  induction procs with
  | nil => rfl
  | cons p ps ih =>
    unfold runProcessors
    rw [h p (List.mem_cons_self p ps)]
    simp only [Bool.false_eq_true, if_false]
    exact ih (fun q hq => h q (List.mem_cons_of_mem p hq))

/-- C4: when two processors both claim the message and the first fails
while the second succeeds, Process still invokes the second (no
short-circuit) and returns the first processor's error; and when no
registered processor claims the message, Process invokes nothing and
returns a nil error. -/
theorem Process_no_shortcircuit_first_error
    (p1 p2 : MessageProcessor) (msg : IncomingMessage) (e : AppError)
    (others : List MessageProcessor)
    (h1 : p1.canProcess msg = true) (h2 : p2.canProcess msg = true)
    (h3 : p1.process msg = some e) (h4 : p2.process msg = none)
    (h5 : ∀ p ∈ others, p.canProcess msg = false) :
    RegistryProcess [p1, p2] msg = (some e, [p1.name, p2.name]) ∧
    RegistryProcess others msg = (none, []) := by
  constructor
  · unfold RegistryProcess
    unfold runProcessors
    rw [h1, h3]
    unfold runProcessors
    rw [h2, h4]
    simp [runProcessors]
  · unfold RegistryProcess
    rw [runProcessors_of_no_claim msg others h5]
    rfl

/-- The always-claiming, always-failing high-priority processor fixture. -/
def procLog : MessageProcessor :=
  ⟨"logging", 100, fun _ => true, fun _ => some (errorsNew .internal "boom")⟩

/-- The always-claiming, succeeding mid-priority processor fixture. -/
def procForm : MessageProcessor :=
  ⟨"form-extract", 50, fun _ => true, fun _ => none⟩

/-- The never-claiming low-priority processor fixture. -/
def procNone : MessageProcessor :=
  ⟨"unclaiming", 10, fun _ => false, fun _ => none⟩

/-- A sample inbound message. -/
def msgSample : IncomingMessage :=
  ⟨"m1", "shop1", "628999@s.whatsapp.net", "hello", 0, false⟩

/-- C4 witness at the concrete registry [logging, form-extract] and at an
unclaiming registry. -/
theorem Process_no_shortcircuit_first_error_witness :
    procLog.canProcess msgSample = true ∧
    procForm.canProcess msgSample = true ∧
    procLog.process msgSample = some (errorsNew .internal "boom") ∧
    procForm.process msgSample = none ∧
    RegistryProcess [procLog, procForm] msgSample
      = (some (errorsNew .internal "boom"), ["logging", "form-extract"]) ∧
    RegistryProcess [procNone] msgSample = (none, []) := by
  have h5 : ∀ p ∈ [procNone], p.canProcess msgSample = false := by
    intro p hp
    rw [List.mem_singleton] at hp
    rw [hp]
    rfl
  have hmain := Process_no_shortcircuit_first_error procLog procForm msgSample
    (errorsNew .internal "boom") [procNone] rfl rfl rfl rfl h5
  exact ⟨rfl, rfl, rfl, rfl, hmain.1, hmain.2⟩

/-! ## C5 -/

/-- Register produces a permutation of the old slice plus the new
processor. -/
theorem Register_perm (procs : List MessageProcessor) (p : MessageProcessor) :
    (Register procs p).Perm (procs ++ [p]) :=
  List.perm_insertionSort prGE (procs ++ [p])

/-- Folding Register over a batch keeps exactly the registered
processors. -/
theorem foldl_Register_perm (l : List MessageProcessor) :
    ∀ acc : List MessageProcessor, (List.foldl Register acc l).Perm (acc ++ l) := by
  induction l with
  | nil => intro acc; simp
  | cons p ps ih =>
    intro acc
    have step1 := ih (Register acc p)
    have step2 := (Register_perm acc p).append_right ps
    simpa [List.append_assoc] using step1.trans step2

/-- RegisterAll returns a permutation of its input. -/
theorem RegisterAll_perm (l : List MessageProcessor) : (RegisterAll l).Perm l := by
  simpa using foldl_Register_perm l []

/-- Register leaves the slice sorted by descending priority. -/
theorem Register_sorted (procs : List MessageProcessor) (p : MessageProcessor) :
    List.Sorted prGE (Register procs p) :=
  List.sorted_insertionSort prGE (procs ++ [p])

/-- After any non-empty sequence of Register calls the slice is sorted;
for the empty sequence it is the empty slice. -/
theorem RegisterAll_sorted (l : List MessageProcessor) :
    List.Sorted prGE (RegisterAll l) := by
  have haux : ∀ (t : List MessageProcessor) (acc : List MessageProcessor),
      List.Sorted prGE acc → List.Sorted prGE (List.foldl Register acc t) := by
    intro t
    induction t with
    | nil => intro acc h; simpa using h
    | cons p ps ih => intro acc _; exact ih (Register acc p) (Register_sorted acc p)
  exact haux l [] List.sorted_nil

/-- The strict descending-priority relation. -/
def prGT (a b : MessageProcessor) : Prop := b.priority < a.priority

instance : IsAntisymm MessageProcessor prGT :=
  ⟨fun _ _ h1 h2 => absurd h2 (lt_asymm h1)⟩

/-- A slice sorted by descending priority whose priorities are pairwise
distinct is strictly sorted. -/
theorem sorted_strict_of_nodup (l : List MessageProcessor)
    (hs : List.Sorted prGE l)
    (hnd : (l.map (fun q => q.priority)).Nodup) :
    List.Sorted prGT l := by
  induction l with
  | nil => exact List.sorted_nil
  | cons a t ih =>
    rw [List.sorted_cons] at hs ⊢
    rw [List.map_cons, List.nodup_cons] at hnd
    refine ⟨?_, ih hs.2 hnd.2⟩
    intro b hb
    have hge : prGE a b := hs.1 b hb
    have hne : a.priority ≠ b.priority := by
      intro hcontra
      exact hnd.1 (hcontra ▸ List.mem_map_of_mem (fun q => q.priority) hb)
    exact lt_of_le_of_ne hge (fun hh => hne hh.symm)

/-- Two batches registering the same processors (distinct priorities) in
any order produce identical registries. -/
theorem RegisterAll_eq_of_perm (l₁ l₂ : List MessageProcessor)
    (hperm : l₁.Perm l₂)
    (hnd : (l₁.map (fun q => q.priority)).Nodup) :
    RegisterAll l₁ = RegisterAll l₂ := by
  have h1 := RegisterAll_perm l₁
  have h2 := RegisterAll_perm l₂
  have hp : (RegisterAll l₁).Perm (RegisterAll l₂) :=
    h1.trans (hperm.trans h2.symm)
  have hnd1 : ((RegisterAll l₁).map (fun q => q.priority)).Nodup :=
    ((h1.map (fun q => q.priority)).nodup_iff).mpr hnd
  have hndl2 : (l₂.map (fun q => q.priority)).Nodup :=
    ((hperm.map (fun q => q.priority)).nodup_iff).mp hnd
  have hnd2 : ((RegisterAll l₂).map (fun q => q.priority)).Nodup :=
    ((h2.map (fun q => q.priority)).nodup_iff).mpr hndl2
  exact List.eq_of_perm_of_sorted hp
    (sorted_strict_of_nodup _ (RegisterAll_sorted l₁) hnd1)
    (sorted_strict_of_nodup _ (RegisterAll_sorted l₂) hnd2)

/-- C5: after every Register call the processor slice is sorted by
descending priority; a batch of registrations yields exactly the
registered processors (GetProcessors returns them); and for processors
with pairwise-distinct priorities — such as the example set [10, 50, 100]
— the resulting order is the same whatever the registration order, so
dispatch iteration order is deterministic for a fixed registration set. -/
theorem Register_invariant (procs : List MessageProcessor)
    (p : MessageProcessor) (l₁ l₂ : List MessageProcessor)
    (hperm : l₁.Perm l₂)
    (hnd : (l₁.map (fun q => q.priority)).Nodup) :
    List.Sorted prGE (Register procs p) ∧
    List.Sorted prGE (GetProcessors (RegisterAll l₁)) ∧
    (GetProcessors (RegisterAll l₁)).Perm l₁ ∧
    GetProcessors (RegisterAll l₁) = GetProcessors (RegisterAll l₂) :=
  ⟨Register_sorted procs p, RegisterAll_sorted l₁, RegisterAll_perm l₁,
    RegisterAll_eq_of_perm l₁ l₂ hperm hnd⟩

/-- C5 witness at the processors of priorities 100, 50, 10 registered in
ascending order versus descending order. -/
theorem Register_invariant_witness :
    ([procNone, procForm, procLog] : List MessageProcessor).Perm
      [procLog, procForm, procNone] ∧
    (([procNone, procForm, procLog].map (fun q => q.priority)).Nodup) ∧
    (List.Sorted prGE (Register [] procLog) ∧
      List.Sorted prGE (GetProcessors (RegisterAll [procNone, procForm, procLog])) ∧
      (GetProcessors (RegisterAll [procNone, procForm, procLog])).Perm
        [procNone, procForm, procLog] ∧
      GetProcessors (RegisterAll [procNone, procForm, procLog])
        = GetProcessors (RegisterAll [procLog, procForm, procNone])) := by
  have hperm : ([procNone, procForm, procLog] : List MessageProcessor).Perm
      [procLog, procForm, procNone] := by
    simpa using (List.reverse_perm [procLog, procForm, procNone])
  have hnd : (([procNone, procForm, procLog] : List MessageProcessor).map
      (fun q => q.priority)).Nodup := by decide
  exact ⟨hperm, hnd, Register_invariant [] procLog _ _ hperm hnd⟩

end GoWa
